import Mathlib

/-!
Verification development for the `monitor` repository (`monitor_api.py`).

The embedding is shallow: the prober `check_service`, the notifier
`send_whatsapp_evolution`, the per-service monitor loop `monitor_service`
and the `force_check` endpoint are translated into pure Lean functions.
Network interactions are represented by an explicit outcome value fed to
the function (the HTTP response that arrived, or the exception that was
raised), and elapsed wall-clock durations are threaded as an abstract
`Nat` parameter.  Wall-clock timestamp fields (`last_check`) are outside
the embedding.
-/

namespace Monitor

/-- One entry of the `SERVICES` configuration dict. -/
structure ServiceConfig where
  name : String
  url : String
  interval : Nat
deriving Repr, DecidableEq

/-- The `SERVICES` dict of `monitor_api.py`, as an association list. -/
def SERVICES : List (String × ServiceConfig) :=
  [ ("frontend_dev",
      { name := "Frontend Dev", url := "https://dev.julgadosbr.com.br/health", interval := 60 }),
    ("frontend_prod",
      { name := "Frontend Prod", url := "https://julgadosbr.com.br/health", interval := 60 }),
    ("backend",
      { name := "Backend API", url := "https://api.dev.julgadosbr.com.br/health", interval := 60 }) ]

/-- The dict returned by `check_service`: status string, elapsed duration,
error message. -/
structure ProbeResult where
  status : String
  response_time : Nat
  error_message : String
deriving Repr, DecidableEq

/-- Outcome of the HTTP GET attempt inside `check_service`: a response
arrived with some status code, or `httpx.TimeoutException`,
`httpx.ConnectError`, or any other exception was raised. -/
inductive ProbeOutcome where
  | response (status_code : Nat)
  | timeout
  | connectError
  | otherException (message : String)
deriving Repr, DecidableEq

/-- `check_service` of `monitor_api.py`: classifies the outcome of one
probe attempt.  Every branch of the source returns a dict; the three
except-clauses make the function total over all outcomes. -/
def check_service (outcome : ProbeOutcome) (response_time : Nat) : ProbeResult :=
  match outcome with
  | .response code =>
      if code = 200 then
        { status := "online", response_time := response_time, error_message := "" }
      else
        { status := "error", response_time := response_time,
          error_message := "HTTP " ++ toString code }
  | .timeout =>
      { status := "offline", response_time := response_time,
        error_message := "Timeout - Serviço não respondeu" }
  | .connectError =>
      { status := "offline", response_time := response_time,
        error_message := "Erro de conexão - Serviço offline" }
  | .otherException msg =>
      { status := "offline", response_time := response_time,
        error_message := "Erro: " ++ msg }

/-- The notifier credentials read from the environment at startup:
`EVOLUTION_API_URL`, `EVOLUTION_API_KEY`, `WHATSAPP_PHONE` (an unset
variable defaults to the empty string). -/
structure NotifierConfig where
  evolution_api_url : String
  evolution_api_key : String
  whatsapp_phone : String
deriving Repr, DecidableEq

/-- Outcome of the HTTP POST inside `send_whatsapp_evolution`: a response
with some status code, or an exception. -/
inductive SendOutcome where
  | response (status_code : Nat)
  | exception (message : String)
deriving Repr, DecidableEq

/-- `send_whatsapp_evolution` of `monitor_api.py`: returns `false` when
any credential is missing (Python falsiness of the empty string), `true`
exactly on a 200/201 response, `false` on any other response or
exception. -/
def send_whatsapp_evolution (cfg : NotifierConfig) (outcome : SendOutcome) : Bool :=
  if cfg.evolution_api_url = "" ∨ cfg.evolution_api_key = "" ∨ cfg.whatsapp_phone = "" then
    false
  else
    match outcome with
    | .response code => code == 201 || code == 200
    | .exception _ => false

/-- The arguments passed to `send_whatsapp_alert` when the monitor loop
fires a notification. -/
structure Alert where
  service_name : String
  status : String
  error : String
deriving Repr, DecidableEq

/-- The debounce state of one `monitor_service` loop: the local variables
`previous_status` and `consecutive_failures`. -/
structure MonitorState where
  previous_status : String
  consecutive_failures : Nat
deriving Repr, DecidableEq

/-- State at loop entry: `previous_status = "online"`,
`consecutive_failures = 0`. -/
def initMonitorState : MonitorState :=
  { previous_status := "online", consecutive_failures := 0 }

/-- The value written to `service_status[service_id]` each cycle
(the `last_check` timestamp field is outside the embedding). -/
structure ServiceStatusEntry where
  name : String
  url : String
  status : String
  response_time : Nat
  error_message : String
deriving Repr, DecidableEq

/-- Result of one iteration of the `while True` loop body. -/
structure CycleOut where
  state : MonitorState
  entry : ServiceStatusEntry
  alerts : List Alert
deriving Repr, DecidableEq

/-- One iteration of the `monitor_service` loop body, given the cycle's
`check_service` result: writes the registry entry, then either increments
`consecutive_failures` (alerting when it equals 2 with
`previous_status == "online"`), or, on an online reading, possibly sends
the recovery alert and resets the count; finally `previous_status` is
assigned the current classification. -/
def monitor_cycle (config : ServiceConfig) (st : MonitorState) (result : ProbeResult) :
    CycleOut :=
  let current_status := result.status
  let entry : ServiceStatusEntry :=
    { name := config.name, url := config.url, status := current_status,
      response_time := result.response_time, error_message := result.error_message }
  if current_status ≠ "online" then
    let consecutive_failures := st.consecutive_failures + 1
    let alerts : List Alert :=
      if consecutive_failures = 2 ∧ st.previous_status = "online" then
        [{ service_name := config.name, status := current_status,
           error := result.error_message }]
      else []
    { state := { previous_status := current_status,
                 consecutive_failures := consecutive_failures },
      entry := entry, alerts := alerts }
  else
    let alerts : List Alert :=
      if st.previous_status ≠ "online" ∧ 2 ≤ st.consecutive_failures then
        [{ service_name := config.name, status := "online",
           error := "Serviço recuperado ✅" }]
      else []
    { state := { previous_status := current_status, consecutive_failures := 0 },
      entry := entry, alerts := alerts }

/-- Result of running the monitor loop over a finite sequence of probe
results: final debounce state, final registry entry, and the list of
alerts sent in each cycle. -/
structure RunOut where
  state : MonitorState
  entry : Option ServiceStatusEntry
  alerts : List (List Alert)
deriving Repr, DecidableEq

/-- The `monitor_service` loop unrolled over a finite sequence of
per-cycle probe results. -/
def monitor_run (config : ServiceConfig) (st : MonitorState)
    (entry : Option ServiceStatusEntry) : List ProbeResult → RunOut
  | [] => { state := st, entry := entry, alerts := [] }
  | r :: rs =>
      let c := monitor_cycle config st r
      let rest := monitor_run config c.state (some c.entry) rs
      { state := rest.state, entry := rest.entry, alerts := c.alerts :: rest.alerts }

/-- A down alert: any alert whose reported status is not `"online"`
(the recovery alert always reports `"online"`). -/
def isDownAlert (a : Alert) : Bool := a.status != "online"

/-- Probe result of an online reading with the given duration. -/
def rOnline (t : Nat) : ProbeResult := check_service (.response 200) t

/-- Probe result of an offline (timeout) reading with the given
duration. -/
def rOffline (t : Nat) : ProbeResult := check_service .timeout t

/-- A recovery alert: an alert whose reported status is `"online"`. -/
def isRecoveryAlert (a : Alert) : Bool := a.status == "online"

/-- The `backend` entry of `SERVICES`. -/
def backend_config : ServiceConfig :=
  { name := "Backend API", url := "https://api.dev.julgadosbr.com.br/health", interval := 60 }

/-- The mutable global state the FastAPI handlers can see: the
`service_status` registry and each running monitor loop's debounce
state. -/
structure GlobalState where
  service_status : List (String × ServiceStatusEntry)
  monitor_states : List (String × MonitorState)
deriving Repr, DecidableEq

/-- Response of the `force_check` endpoint: a 404 JSON error, or the
service name together with the raw probe result. -/
inductive ForceCheckResponse where
  | notFound (status_code : Nat) (error : String)
  | ok (service : String) (result : ProbeResult)
deriving Repr, DecidableEq

/-- `force_check` of `monitor_api.py`: a 404 error when the id is not in
`SERVICES`, otherwise one out-of-band `check_service` call.  The global
state is threaded explicitly; the handler body performs no write to it. -/
def force_check (service_id : String) (outcome : ProbeOutcome) (response_time : Nat)
    (gs : GlobalState) : ForceCheckResponse × GlobalState :=
  match SERVICES.lookup service_id with
  | none => (.notFound 404 "Serviço não encontrado", gs)
  | some config => (.ok config.name (check_service outcome response_time), gs)

/-- The loop-state invariant: whenever at least one consecutive failure
has been counted, the previously confirmed status is not `"online"`
(because `previous_status` was assigned that cycle's non-online
classification). -/
def MonitorInv (st : MonitorState) : Prop :=
  1 ≤ st.consecutive_failures → st.previous_status ≠ "online"

lemma initMonitorState_inv : MonitorInv initMonitorState := by
  intro h
  simp [initMonitorState] at h

lemma monitor_cycle_inv (config : ServiceConfig) (st : MonitorState) (r : ProbeResult) :
    MonitorInv (monitor_cycle config st r).state := by
  unfold monitor_cycle MonitorInv
  by_cases h : r.status = "online"
  · simp [h]
  · simp [h]

lemma monitor_cycle_no_down (config : ServiceConfig) (st : MonitorState) (r : ProbeResult)
    (h : MonitorInv st) :
    (monitor_cycle config st r).alerts.filter isDownAlert = [] := by
  unfold monitor_cycle
  by_cases hs : r.status = "online"
  · simp [hs]
    intro a _ _ h3
    subst h3
    simp [isDownAlert]
  · simp [hs]
    intro a h1 h2
    exact absurd h2 (h (by omega))

lemma monitor_run_no_down (config : ServiceConfig) (st : MonitorState)
    (entry : Option ServiceStatusEntry) (rs : List ProbeResult) (h : MonitorInv st) :
    ((monitor_run config st entry rs).alerts.flatten.filter isDownAlert) = [] := by
  induction rs generalizing st entry with
  | nil => simp [monitor_run]
  | cons r rs ih =>
      simp only [monitor_run, List.flatten_cons, List.filter_append]
      rw [monitor_cycle_no_down config st r h,
        ih (monitor_cycle config st r).state (some (monitor_cycle config st r).entry)
          (monitor_cycle_inv config st r)]
      rfl

/-- C1: Evaluating the monitor loop at the failing input — the
classification sequence [Online, Offline, Offline] from the initial
state — the code sends no alert in any cycle; in particular no
down-alert at the 2nd Offline cycle, contrary to the claim. -/
theorem c1_no_alert_on_double_offline :
    (monitor_run backend_config initMonitorState none
        [rOnline 1, rOffline 2, rOffline 3]).alerts = [[], [], []] := by
  rfl

/-- C2: At the failing input [Online, Offline, Offline] from the initial
state, no alert is sent in any cycle (the claimed down-alert at the 2nd
Offline never fires), while the registry entry after the last cycle does
record classification Offline with the last cycle's duration and error
detail. -/
theorem c2_no_alert_but_registry_records_offline :
    (monitor_run backend_config initMonitorState none
        [rOnline 4, rOffline 5, rOffline 6]).alerts = [[], [], []] ∧
    (monitor_run backend_config initMonitorState none
        [rOnline 4, rOffline 5, rOffline 6]).entry
      = some { name := "Backend API", url := "https://api.dev.julgadosbr.com.br/health",
               status := "offline", response_time := 6,
               error_message := "Timeout - Serviço não respondeu" } := by
  exact ⟨rfl, rfl⟩

/-- C3: At the failing input [Online, Offline, Offline, Online] from the
initial state, the code sends no down-alert at all and exactly one
recovery-alert, at the 4th cycle — contrary to the claim, which expects
one down-alert at the 2nd cycle as well. -/
theorem c3_only_recovery_alert_fires :
    (monitor_run backend_config initMonitorState none
        [rOnline 1, rOffline 2, rOffline 3, rOnline 4]).alerts
      = [[], [], [],
         [{ service_name := "Backend API", status := "online",
            error := "Serviço recuperado ✅" }]] := by
  rfl

/-- C4: For every finite sequence of per-cycle classifications, the
monitor loop started from the initial state never sends a down-alert:
the guard consecutive_failures == 2 with previous_status == "online" is
unsatisfiable, since previous_status was assigned the previous cycle's
non-online classification. -/
theorem c4_down_alert_never_sent (config : ServiceConfig) (rs : List ProbeResult) :
    ((monitor_run config initMonitorState none rs).alerts.flatten.filter isDownAlert) = [] :=
  monitor_run_no_down config initMonitorState none rs initMonitorState_inv

/-- C5: In one cycle of the monitor loop, the consecutive-failure count
is reset to 0 exactly when the cycle's classification is Online, and a
non-online cycle strictly increments it. -/
theorem c5_failure_count_resets_exactly_on_online (config : ServiceConfig)
    (st : MonitorState) (r : ProbeResult) :
    ((monitor_cycle config st r).state.consecutive_failures = 0 ↔ r.status = "online") ∧
    (r.status ≠ "online" →
      (monitor_cycle config st r).state.consecutive_failures
        = st.consecutive_failures + 1) := by
  unfold monitor_cycle
  by_cases hs : r.status = "online" <;> simp [hs]

/-- Witness for C5 at a concrete offline cycle. -/
theorem c5_witness :
    (rOffline 1).status ≠ "online" ∧
    (monitor_cycle backend_config initMonitorState (rOffline 1)).state.consecutive_failures
      = initMonitorState.consecutive_failures + 1 :=
  ⟨by decide,
   (c5_failure_count_resets_exactly_on_online backend_config initMonitorState
      (rOffline 1)).2 (by decide)⟩

/-- C6: The prober classifies a received response Online iff its status
code is exactly 200; any other code yields classification "error" with
the code in the error detail. -/
theorem c6_online_iff_status_200 (code t : Nat) :
    ((check_service (.response code) t).status = "online" ↔ code = 200) ∧
    (code ≠ 200 →
      check_service (.response code) t
        = { status := "error", response_time := t,
            error_message := "HTTP " ++ toString code }) := by
  unfold check_service
  by_cases h : code = 200 <;> simp [h]

/-- Witness for C6 at status code 204 (a 2xx code that is not 200). -/
theorem c6_witness :
    (204 ≠ 200) ∧
    check_service (.response 204) 1
      = { status := "error", response_time := 1,
          error_message := "HTTP " ++ toString 204 } :=
  ⟨by decide, (c6_online_iff_status_200 204 1).2 (by decide)⟩

/-- C7: Every probe failure — timeout, connection error, or any other
exception — is caught and yields an Offline result with a distinguishing
error detail, and the elapsed duration is populated in every outcome. -/
theorem c7_probe_failures_caught (t : Nat) (msg : String) :
    check_service .timeout t
      = { status := "offline", response_time := t,
          error_message := "Timeout - Serviço não respondeu" } ∧
    check_service .connectError t
      = { status := "offline", response_time := t,
          error_message := "Erro de conexão - Serviço offline" } ∧
    check_service (.otherException msg) t
      = { status := "offline", response_time := t, error_message := "Erro: " ++ msg } ∧
    ((check_service .timeout t).error_message
        == (check_service .connectError t).error_message) = false ∧
    (∀ o : ProbeOutcome, (check_service o t).response_time = t) := by
  refine ⟨rfl, rfl, rfl, by rfl, ?_⟩
  intro o
  cases o
  · rename_i code
    unfold check_service
    by_cases h : code = 200 <;> simp [h]
  · rfl
  · rfl
  · rfl

/-- C8: `force_check` on an id not in `SERVICES` returns a 404 error,
and on any id it leaves the registry and all debounce state unchanged. -/
theorem c8_force_check_unknown_404_and_no_mutation (service_id : String)
    (outcome : ProbeOutcome) (t : Nat) (gs : GlobalState) :
    (SERVICES.lookup service_id = none →
      (force_check service_id outcome t gs).1
        = .notFound 404 "Serviço não encontrado") ∧
    (force_check service_id outcome t gs).2 = gs := by
  constructor
  · intro h
    simp [force_check, h]
  · unfold force_check
    split <;> rfl

/-- Witness for C8 at the unconfigured id "database". -/
theorem c8_witness :
    SERVICES.lookup "database" = none ∧
    (force_check "database" .timeout 1
        { service_status := [], monitor_states := [] }).1
      = .notFound 404 "Serviço não encontrado" :=
  ⟨by decide,
   (c8_force_check_unknown_404_and_no_mutation "database" .timeout 1
      { service_status := [], monitor_states := [] }).1 (by decide)⟩

/-- C9: the notifier returns false (and never raises) when any credential
is absent, on any non-success response code, and on any exception. -/
theorem c9_notifier_returns_false_on_failure (cfg : NotifierConfig) (code : Nat)
    (msg : String) :
    ((cfg.evolution_api_url = "" ∨ cfg.evolution_api_key = "" ∨ cfg.whatsapp_phone = "") →
      ∀ o : SendOutcome, send_whatsapp_evolution cfg o = false) ∧
    (code ≠ 201 ∧ code ≠ 200 →
      send_whatsapp_evolution cfg (.response code) = false) ∧
    send_whatsapp_evolution cfg (.exception msg) = false := by
  refine ⟨?_, ?_, ?_⟩
  · intro h o
    simp [send_whatsapp_evolution, h]
  · intro h
    unfold send_whatsapp_evolution
    split
    · rfl
    · simp [h.1, h.2]
  · unfold send_whatsapp_evolution
    split <;> rfl

/-- Witness for C9: missing API URL degrades to false even on a 200
response, and a 404 delivery response returns false with full
credentials. -/
theorem c9_witness :
    ((("" : String) = "" ∨ ("k" : String) = "" ∨ ("p" : String) = "") ∧
      send_whatsapp_evolution
        { evolution_api_url := "", evolution_api_key := "k", whatsapp_phone := "p" }
        (.response 200) = false) ∧
    ((404 ≠ 201 ∧ 404 ≠ 200) ∧
      send_whatsapp_evolution
        { evolution_api_url := "u", evolution_api_key := "k", whatsapp_phone := "p" }
        (.response 404) = false) :=
  ⟨⟨by decide,
    (c9_notifier_returns_false_on_failure
        { evolution_api_url := "", evolution_api_key := "k", whatsapp_phone := "p" }
        404 "e").1 (by decide) (.response 200)⟩,
   ⟨by decide,
    (c9_notifier_returns_false_on_failure
        { evolution_api_url := "u", evolution_api_key := "k", whatsapp_phone := "p" }
        404 "e").2.1 (by decide)⟩⟩

/-- C10: there is a classification sequence — [Online, Offline, Offline,
Online] from the initial state — on which the monitor loop sends a
recovery-alert although it sent no down-alert for the preceding outage. -/
theorem c10_recovery_without_prior_down_alert :
    ((monitor_run backend_config initMonitorState none
        [rOnline 7, rOffline 8, rOffline 9, rOnline 10]).alerts.flatten.filter
          isDownAlert).length = 0 ∧
    ((monitor_run backend_config initMonitorState none
        [rOnline 7, rOffline 8, rOffline 9, rOnline 10]).alerts.flatten.filter
          isRecoveryAlert).length = 1 := by
  exact ⟨rfl, rfl⟩

end Monitor
